import Mathlib

/-!
# Verification of the altrightclick input classifier and process supervisor

Shallow embedding of the two core components of the `altrightclick` repository:

* `hook.cpp` — the low-level mouse hook (`LowLevelMouseProc`) that translates a
  qualifying trigger-button click into a synthesized right click, and
  `apply_hook_config`, which installs a new configuration snapshot.
* `persistence.cpp` — the watchdog / monitor loop (`run_monitor`) that
  relaunches the main process after abnormal exits, with restart-rate limiting
  and exponential backoff.

The hook callback's global mutable state is split into the configuration
globals (`HookConfig`, written only by `apply_hook_config`) and the
click/drag discrimination globals `g_tracking`, `g_startPt`, `g_downTick`
(`TrackState`, written only by the callback).  External inputs read by the
callback (the `MSLLHOOKSTRUCT`, `GetTickCount`, `GetAsyncKeyState`) are
bundled into `MouseLLEvent`.  Calls to `SendInput` are modelled as a list of
`InputEvent` values describing the submitted `INPUT` structures.

The monitor loop is modelled one iteration at a time (`monitor_iter`),
threading the in-memory restart-timestamp list and the current backoff, with
the external world (time at the rate check, spawn success, child exit code,
intent-marker presence, stop signal) supplied as inputs and observable
actions (sleeps, spawns, history writes) emitted as a trace.
-/

namespace Arc

/-- `arc::config::Config::Trigger` — the source button being translated. -/
inductive Trigger
  | left
  | middle
  | x1
  | x2
deriving DecidableEq, Repr

/-- A screen point (`POINT`): `LONG` coordinates, modelled exactly. -/
structure Point where
  x : Int
  y : Int
deriving DecidableEq, Repr

/-- `distance_sq` from hook.cpp: squared Euclidean distance (avoids sqrt). -/
def distance_sq (a b : Point) : Int :=
  let dx := a.x - b.x
  let dy := a.y - b.y
  dx * dx + dy * dy

/-- The mouse-message values of `wParam` that the hook inspects.  All other
messages (e.g. right-button or wheel messages) are `other`. -/
inductive Msg
  | lbuttondown
  | lbuttonup
  | mbuttondown
  | mbuttonup
  | xbuttondown
  | xbuttonup
  | mousemove
  | other
deriving DecidableEq, Repr

/-- `kArcInjectedTag = 0xA17C1C00` — the `dwExtraInfo` tag stamped on every
event this process injects via `SendInput`. -/
def kArcInjectedTag : Nat := 0xA17C1C00

/-- The configuration globals of hook.cpp (`g_enabled`, `g_ignore_injected`,
`g_state.modifier_vk`, `g_modifier_combo`, `g_trigger`, `g_clickTimeMs`,
`g_moveRadius`), written only by `apply_hook_config`. -/
structure HookConfig where
  enabled : Bool
  ignore_injected : Bool
  modifier_vk : Nat
  modifier_combo : List Nat
  trigger : Trigger
  clickTimeMs : Nat
  moveRadius : Int
deriving DecidableEq, Repr

/-- The click/drag discrimination globals of hook.cpp: `g_tracking`,
`g_startPt`, `g_downTick`. -/
structure TrackState where
  tracking : Bool
  startPt : Point
  downTick : Nat
deriving DecidableEq, Repr

/-- One `MSLLHOOKSTRUCT` delivery together with the ambient inputs the
callback reads while handling it:

* `msg` — the `wParam` message;
* `mouseDataHi` — `HIWORD(mouseData)` (`XBUTTON1 = 1`, `XBUTTON2 = 2`);
* `pt` — the event position;
* `flagsInjected` — whether `flags & (LLMHF_INJECTED | LLMHF_LOWER_IL_INJECTED)`
  is nonzero;
* `extraInfo` — `dwExtraInfo`;
* `tick` — the value `GetTickCount()` returns during this callback;
* `keyDown` — the high bit of `GetAsyncKeyState` per virtual key. -/
structure MouseLLEvent where
  msg : Msg
  mouseDataHi : Nat
  pt : Point
  flagsInjected : Bool
  extraInfo : Nat
  tick : Nat
  keyDown : Nat → Bool

/-- The mouse-event kinds in `dwFlags` of the `INPUT` records the hook builds
(`MOUSEEVENTF_*`). -/
inductive MouseFlag
  | leftdown
  | middledown
  | xdown
  | rightdown
  | rightup
deriving DecidableEq, Repr

/-- One `INPUT` record as submitted to `SendInput`.  The hook zero-initialises
the struct and sets only `dwFlags`, `mouseData` (for X buttons) and
`dwExtraInfo`; it never sets `MOUSEEVENTF_MOVE`/`MOUSEEVENTF_ABSOLUTE`, so
`dx`/`dy` stay 0 and are ignored by the OS — the event carries no explicit
coordinates (`pos = none`) and occurs at the pointer's current location. -/
structure InputEvent where
  flag : MouseFlag
  mouseData : Nat
  pos : Option Point
  extraInfo : Nat
deriving DecidableEq, Repr

/-- Result of one callback invocation: `handled = true` means the callback
returned 1 (the event is swallowed); `handled = false` means it delegated to
`CallNextHookEx` (pass-through).  `state` is the updated `TrackState`;
`injected` lists the `INPUT` records submitted via `SendInput`, in order. -/
structure HookResult where
  handled : Bool
  state : TrackState
  injected : List InputEvent
deriving DecidableEq, Repr

/-- The `all_mods_down` lambda: all keys of `g_modifier_combo` held, falling
back to the legacy single `modifier_vk` (held, or no check when 0) when the
combo is empty. -/
def all_mods_down (cfg : HookConfig) (keyDown : Nat → Bool) : Bool :=
  if cfg.modifier_combo ≠ [] then
    cfg.modifier_combo.all keyDown
  else if cfg.modifier_vk ≠ 0 then
    keyDown cfg.modifier_vk
  else
    true

/-- The `is_down` lambda: does `wParam` (with `HIWORD(mouseData)`) encode the
configured trigger button going down? -/
def is_down (t : Trigger) (m : Msg) (hi : Nat) : Bool :=
  match t with
  | .left => m == .lbuttondown
  | .middle => m == .mbuttondown
  | .x1 => m == .xbuttondown && hi == 1
  | .x2 => m == .xbuttondown && hi == 2

/-- The `is_up` lambda: does `wParam` (with `HIWORD(mouseData)`) encode the
configured trigger button going up? -/
def is_up (t : Trigger) (m : Msg) (hi : Nat) : Bool :=
  match t with
  | .left => m == .lbuttonup
  | .middle => m == .mbuttonup
  | .x1 => m == .xbuttonup && hi == 1
  | .x2 => m == .xbuttonup && hi == 2

/-- `DWORD` subtraction `a - b` modulo `2^32`, as in
`DWORD dt = GetTickCount() - g_downTick`. -/
def dword_sub (a b : Nat) : Nat :=
  (a % 2 ^ 32 + (2 ^ 32 - b % 2 ^ 32)) % 2 ^ 32

/-- The `INPUT` record built in the drag branch: a down event for the
configured source button, tagged, with no coordinates. -/
def srcDownInput (t : Trigger) : InputEvent :=
  match t with
  | .left => ⟨.leftdown, 0, none, kArcInjectedTag⟩
  | .middle => ⟨.middledown, 0, none, kArcInjectedTag⟩
  | .x1 => ⟨.xdown, 1, none, kArcInjectedTag⟩
  | .x2 => ⟨.xdown, 2, none, kArcInjectedTag⟩

/-- The right-click pair built in the click-translation branch: tagged
`MOUSEEVENTF_RIGHTDOWN` then `MOUSEEVENTF_RIGHTUP`, no coordinates. -/
def rightClickPair : List InputEvent :=
  [⟨.rightdown, 0, none, kArcInjectedTag⟩, ⟨.rightup, 0, none, kArcInjectedTag⟩]

/-- `LowLevelMouseProc` from hook.cpp, at one delivery.  `nCode` is the hook
code (`HC_ACTION = 0`); for any other code the callback immediately delegates
to `CallNextHookEx`.  `lParam` always points to a valid `MSLLHOOKSTRUCT` for
`WH_MOUSE_LL`, so the `pMouse` null checks are vacuous and the struct is given
directly as `ev`. -/
def LowLevelMouseProc (cfg : HookConfig) (st : TrackState) (nCode : Int)
    (ev : MouseLLEvent) : HookResult :=
  if nCode = 0 then
    if !cfg.enabled then
      ⟨false, st, []⟩
    else if ev.extraInfo == kArcInjectedTag then
      -- Ignore events we injected ourselves
      ⟨false, st, []⟩
    else if cfg.ignore_injected && ev.flagsInjected then
      ⟨false, st, []⟩
    else if is_down cfg.trigger ev.msg ev.mouseDataHi then
      if all_mods_down cfg ev.keyDown then
        -- Begin tracking: suppress original down for potential translation
        ⟨true, ⟨true, ev.pt, ev.tick⟩, []⟩
      else
        ⟨false, st, []⟩
    else if ev.msg == .mousemove then
      if st.tracking then
        if distance_sq ev.pt st.startPt > cfg.moveRadius * cfg.moveRadius then
          -- Drag: synthesize source-button down, stop tracking
          ⟨false, { st with tracking := false }, [srcDownInput cfg.trigger]⟩
        else
          ⟨false, st, []⟩
      else
        ⟨false, st, []⟩
    else if is_up cfg.trigger ev.msg ev.mouseDataHi then
      if st.tracking then
        let dt := dword_sub ev.tick st.downTick
        let d2 := distance_sq ev.pt st.startPt
        if dt ≤ cfg.clickTimeMs ∧ d2 ≤ cfg.moveRadius * cfg.moveRadius then
          ⟨true, { st with tracking := false }, rightClickPair⟩
        else
          ⟨true, { st with tracking := false }, []⟩
      else
        ⟨false, st, []⟩
    else
      ⟨false, st, []⟩
  else
    ⟨false, st, []⟩

/-- The relevant fields of `arc::config::Config` consumed by
`apply_hook_config`. -/
structure Config where
  enabled : Bool
  ignore_injected : Bool
  modifier_vk : Nat
  modifier_combo_vks : List Nat
  trigger : Trigger
  click_time_ms : Nat
  move_radius_px : Int
deriving DecidableEq, Repr

/-- `apply_hook_config` from hook.cpp: copies the configuration fields into
the hook's configuration globals.  It does not touch `g_tracking`,
`g_startPt` or `g_downTick`, so the `TrackState` component is returned
unchanged. -/
def apply_hook_config (cfg : Config) (g : HookConfig × TrackState) :
    HookConfig × TrackState :=
  (⟨cfg.enabled, cfg.ignore_injected, cfg.modifier_vk, cfg.modifier_combo_vks,
    cfg.trigger, cfg.click_time_ms, cfg.move_radius_px⟩, g.2)

/-! ## The monitor (watchdog) loop of persistence.cpp -/

/-- The tuning values `run_monitor` reads at startup (`kMaxRestarts`,
`kWindow`, `backoffMs`, `backoffMaxMs`).  `maxRestarts` is the C++ `int`
compared against `static_cast<int>(restarts.size())`; `window` is the rolling
window expressed in the same time unit as the restart timestamps;
`backoffMax` is the backoff cap in milliseconds. -/
structure MonConfig where
  maxRestarts : Int
  window : Int
  backoffMax : Int
deriving DecidableEq, Repr

/-- The mutable loop state of `run_monitor`: the in-memory restart-timestamp
vector `restarts` and the current `backoff` (milliseconds). -/
structure MonState where
  restarts : List Int
  backoff : Int
deriving DecidableEq, Repr

/-- What the external world does during one loop iteration that reaches the
spawn: the spawn fails (`spawnFail`), the stop signal fires during the
combined wait (`stopped`), or the child exits (`exited code marker t`) with
the observed exit code (`GetExitCodeProcess` failure already folded in as
code 1), intent-marker presence at the exit check, and the
`system_clock::now()` value `t` recorded on an abnormal exit.  In a throttled
iteration the outcome is never consulted. -/
inductive IterOutcome
  | spawnFail
  | stopped
  | exited (code : Nat) (marker : Bool) (t : Int)
deriving DecidableEq, Repr

/-- The observable actions of one `run_monitor` iteration, in program order:
deleting the stale intent marker before a (re)launch, rewriting the persisted
history file, the throttle sleep of a full window, a `spawn_child` attempt,
deleting an intent marker found after a child exit, the backoff sleep, and
deleting the history file. -/
inductive MonEvent
  | deleteStaleMarker
  | saveHistory (h : List Int)
  | sleepWindow
  | spawnAttempt
  | deleteIntentMarker
  | sleepBackoff (ms : Int)
  | clearHistory
deriving DecidableEq, Repr

/-- The pruning `remove_if` at the top of the loop: drop every timestamp `t`
with `now - t > kWindow`. -/
def prune (window now : Int) (rs : List Int) : List Int :=
  rs.filter (fun t => !(now - t > window))

/-- The backoff update `backoff = std::min(backoff * 2, backoff_max)`. -/
def next_backoff (backoffMax b : Int) : Int :=
  min (b * 2) backoffMax

/-- One iteration of the `while (true)` loop of `run_monitor`, from the top
of the loop to the next `continue`/`break`/`return`.  `now` is the
`system_clock::now()` sampled for the rate check.  Returns the action trace
of the iteration and `some` next state, or `none` when the loop terminated
(stop signal or clean child exit), in which case the trace already includes
the final `clear_restart_history`. -/
def monitor_iter (cfg : MonConfig) (s : MonState) (now : Int)
    (out : IterOutcome) : List MonEvent × Option MonState :=
  let rs := prune cfg.window now s.restarts
  let pruneEvs :=
    if rs.length ≠ s.restarts.length then [MonEvent.saveHistory rs] else []
  if cfg.maxRestarts ≤ (rs.length : Int) then
    -- "too many restarts; sleeping for a minute"
    (MonEvent.deleteStaleMarker :: pruneEvs ++ [MonEvent.sleepWindow],
     some ⟨rs, s.backoff⟩)
  else
    match out with
    | .spawnFail =>
        (MonEvent.deleteStaleMarker :: pruneEvs ++
           [MonEvent.spawnAttempt, MonEvent.sleepBackoff s.backoff],
         some ⟨rs, next_backoff cfg.backoffMax s.backoff⟩)
    | .stopped =>
        (MonEvent.deleteStaleMarker :: pruneEvs ++
           [MonEvent.spawnAttempt, MonEvent.clearHistory],
         none)
    | .exited code marker t =>
        let markerEvs := if marker then [MonEvent.deleteIntentMarker] else []
        if code = 0 ∨ marker then
          -- "child exited normally; stopping monitor" (break, then clear)
          (MonEvent.deleteStaleMarker :: pruneEvs ++
             [MonEvent.spawnAttempt] ++ markerEvs ++ [MonEvent.clearHistory],
           none)
        else
          -- "child exited abnormally; restarting..."
          (MonEvent.deleteStaleMarker :: pruneEvs ++
             [MonEvent.spawnAttempt] ++ markerEvs ++
             [MonEvent.saveHistory (rs ++ [t]), MonEvent.sleepBackoff s.backoff],
           some ⟨rs ++ [t], next_backoff cfg.backoffMax s.backoff⟩)

/-- Iterated `monitor_iter` over a list of per-iteration environments
`(now, outcome)`, concatenating the action traces.  Stops early when an
iteration terminates the loop. -/
def monitor_run (cfg : MonConfig) (s : MonState) :
    List (Int × IterOutcome) → List MonEvent × Option MonState
  | [] => ([], some s)
  | (now, out) :: rest =>
    match monitor_iter cfg s now out with
    | (evs, none) => (evs, none)
    | (evs, some s') =>
      let r := monitor_run cfg s' rest
      (evs ++ r.1, r.2)

/-- The backoff-sleep durations occurring in a trace, in order. -/
def backoffSleeps : List MonEvent → List Int
  | [] => []
  | MonEvent.sleepBackoff b :: rest => b :: backoffSleeps rest
  | _ :: rest => backoffSleeps rest

/-! ## Branch lemmas for `LowLevelMouseProc` -/

lemma is_down_mousemove (t : Trigger) (hi : Nat) : is_down t .mousemove hi = false := by
  cases t <;> rfl

lemma is_up_mousemove (t : Trigger) (hi : Nat) : is_up t .mousemove hi = false := by
  cases t <;> rfl

lemma is_down_of_up (t : Trigger) (m : Msg) (hi : Nat) (h : is_up t m hi = true) :
    is_down t m hi = false := by
  cases t <;> cases m <;> simp_all [is_up, is_down]

lemma not_mousemove_of_up (t : Trigger) (m : Msg) (hi : Nat) (h : is_up t m hi = true) :
    (m == Msg.mousemove) = false := by
  cases t <;> cases m <;> simp_all [is_up]

lemma is_up_of_down (t : Trigger) (m : Msg) (hi : Nat) (h : is_down t m hi = true) :
    is_up t m hi = false := by
  cases t <;> cases m <;> simp_all [is_up, is_down]

lemma not_mousemove_of_down (t : Trigger) (m : Msg) (hi : Nat) (h : is_down t m hi = true) :
    (m == Msg.mousemove) = false := by
  cases t <;> cases m <;> simp_all [is_down]

lemma proc_pass_ncode (cfg : HookConfig) (st : TrackState) (n : Int) (ev : MouseLLEvent)
    (hn : n ≠ 0) : LowLevelMouseProc cfg st n ev = ⟨false, st, []⟩ := by
  simp [LowLevelMouseProc, hn]

lemma proc_pass_disabled (cfg : HookConfig) (st : TrackState) (n : Int) (ev : MouseLLEvent)
    (hen : cfg.enabled = false) : LowLevelMouseProc cfg st n ev = ⟨false, st, []⟩ := by
  unfold LowLevelMouseProc
  split
  · simp [hen]
  · rfl

lemma proc_pass_tag (cfg : HookConfig) (st : TrackState) (n : Int) (ev : MouseLLEvent)
    (htag : ev.extraInfo = kArcInjectedTag) :
    LowLevelMouseProc cfg st n ev = ⟨false, st, []⟩ := by
  unfold LowLevelMouseProc
  split
  · cases hen : cfg.enabled <;> simp [hen, htag]
  · rfl

lemma proc_pass_injected (cfg : HookConfig) (st : TrackState) (n : Int) (ev : MouseLLEvent)
    (hinj : (cfg.ignore_injected && ev.flagsInjected) = true) :
    LowLevelMouseProc cfg st n ev = ⟨false, st, []⟩ := by
  unfold LowLevelMouseProc
  split
  · cases hen : cfg.enabled
    · simp [hen]
    · by_cases htag : ev.extraInfo = kArcInjectedTag <;> simp [hen, htag, hinj]
  · rfl

lemma proc_down_branch (cfg : HookConfig) (st : TrackState) (n : Int) (ev : MouseLLEvent)
    (hn : n = 0) (hen : cfg.enabled = true) (htag : ev.extraInfo ≠ kArcInjectedTag)
    (hinj : (cfg.ignore_injected && ev.flagsInjected) = false)
    (hdown : is_down cfg.trigger ev.msg ev.mouseDataHi = true) :
    LowLevelMouseProc cfg st n ev =
      if all_mods_down cfg ev.keyDown then ⟨true, ⟨true, ev.pt, ev.tick⟩, []⟩
      else ⟨false, st, []⟩ := by
  subst hn
  simp [LowLevelMouseProc, hen, htag, hinj, hdown]

lemma proc_move_branch (cfg : HookConfig) (st : TrackState) (n : Int) (ev : MouseLLEvent)
    (hn : n = 0) (hen : cfg.enabled = true) (htag : ev.extraInfo ≠ kArcInjectedTag)
    (hinj : (cfg.ignore_injected && ev.flagsInjected) = false)
    (hmm : ev.msg = Msg.mousemove) :
    LowLevelMouseProc cfg st n ev =
      if st.tracking then
        if distance_sq ev.pt st.startPt > cfg.moveRadius * cfg.moveRadius then
          ⟨false, { st with tracking := false }, [srcDownInput cfg.trigger]⟩
        else ⟨false, st, []⟩
      else ⟨false, st, []⟩ := by
  subst hn
  simp [LowLevelMouseProc, hen, htag, hinj, hmm, is_down_mousemove]

lemma proc_up_branch (cfg : HookConfig) (st : TrackState) (n : Int) (ev : MouseLLEvent)
    (hn : n = 0) (hen : cfg.enabled = true) (htag : ev.extraInfo ≠ kArcInjectedTag)
    (hinj : (cfg.ignore_injected && ev.flagsInjected) = false)
    (hup : is_up cfg.trigger ev.msg ev.mouseDataHi = true) :
    LowLevelMouseProc cfg st n ev =
      if st.tracking then
        if dword_sub ev.tick st.downTick ≤ cfg.clickTimeMs ∧
            distance_sq ev.pt st.startPt ≤ cfg.moveRadius * cfg.moveRadius then
          ⟨true, { st with tracking := false }, rightClickPair⟩
        else ⟨true, { st with tracking := false }, []⟩
      else ⟨false, st, []⟩ := by
  subst hn
  simp [LowLevelMouseProc, hen, htag, hinj, hup, is_down_of_up _ _ _ hup,
    not_mousemove_of_up _ _ _ hup]

lemma proc_pass_fallthrough (cfg : HookConfig) (st : TrackState) (n : Int)
    (ev : MouseLLEvent)
    (hdown : is_down cfg.trigger ev.msg ev.mouseDataHi = false)
    (hmm : (ev.msg == Msg.mousemove) = false)
    (hup : is_up cfg.trigger ev.msg ev.mouseDataHi = false) :
    LowLevelMouseProc cfg st n ev = ⟨false, st, []⟩ := by
  unfold LowLevelMouseProc
  split
  · cases hen : cfg.enabled
    · simp [hen]
    · by_cases htag : ev.extraInfo = kArcInjectedTag
      · simp [hen, htag]
      · cases hinj : cfg.ignore_injected && ev.flagsInjected <;>
          simp [hen, htag, hinj, hdown, hmm, hup]
  · rfl

lemma proc_up_notracking (cfg : HookConfig) (st : TrackState) (n : Int)
    (ev : MouseLLEvent) (hst : st.tracking = false)
    (hup : is_up cfg.trigger ev.msg ev.mouseDataHi = true) :
    LowLevelMouseProc cfg st n ev = ⟨false, st, []⟩ := by
  by_cases hn : n = 0
  · cases hen : cfg.enabled
    · exact proc_pass_disabled cfg st n ev hen
    · by_cases htag : ev.extraInfo = kArcInjectedTag
      · exact proc_pass_tag cfg st n ev htag
      · cases hinj : cfg.ignore_injected && ev.flagsInjected
        · rw [proc_up_branch cfg st n ev hn hen htag hinj hup, hst]
          simp
        · exact proc_pass_injected cfg st n ev hinj
  · exact proc_pass_ncode cfg st n ev hn

lemma srcDownInput_extraInfo (t : Trigger) :
    (srcDownInput t).extraInfo = kArcInjectedTag := by
  cases t <;> rfl

lemma srcDownInput_pos (t : Trigger) : (srcDownInput t).pos = none := by
  cases t <;> rfl

lemma srcDownInput_not_right (t : Trigger) :
    (srcDownInput t).flag ≠ MouseFlag.rightdown ∧
    (srcDownInput t).flag ≠ MouseFlag.rightup := by
  cases t <;> exact ⟨by decide, by decide⟩

/-! ## Concrete inputs used by witnesses and counterexamples -/

/-- A left-trigger configuration with no modifier requirement
(`modifier_vk = 0`, empty combo): thresholds 250 ms / 6 px. -/
def cfgW : HookConfig := ⟨true, true, 0, [], Trigger.left, 250, 6⟩

/-- A tracking state recording a down at the origin at tick 100. -/
def stW : TrackState := ⟨true, ⟨0, 0⟩, 100⟩

/-- A left-button-up at distance √2 from the origin, 100 ticks later. -/
def evUpW : MouseLLEvent := ⟨Msg.lbuttonup, 0, ⟨1, 1⟩, false, 0, 200, fun _ => false⟩

/-- A pointer move 20 px from the origin (beyond the 6 px radius). -/
def evMoveFarW : MouseLLEvent := ⟨Msg.mousemove, 0, ⟨20, 0⟩, false, 0, 150, fun _ => false⟩

/-- A pointer move 2 px from the origin (within the 6 px radius). -/
def evMoveNearW : MouseLLEvent := ⟨Msg.mousemove, 0, ⟨2, 0⟩, false, 0, 150, fun _ => false⟩

/-- A left-button-down at (5, 7) at tick 200, carrying no tag. -/
def evDownW : MouseLLEvent := ⟨Msg.lbuttondown, 0, ⟨5, 7⟩, false, 0, 200, fun _ => false⟩

/-- A left-button-down carrying this process's injection tag. -/
def evTaggedW : MouseLLEvent :=
  ⟨Msg.lbuttondown, 0, ⟨3, 4⟩, true, kArcInjectedTag, 300, fun _ => true⟩

/-! ## Claim theorems -/

/-- Claim C1: on a trigger-button-up that reaches classification while
tracking, the callback swallows the up and ends tracking; it injects exactly
the tagged right-down/right-up pair when the elapsed ticks are at most
`click_time_ms` and the squared displacement from the recorded start is at
most `move_radius_px²`, and injects nothing when either bound is
exceeded. -/
theorem c1_click_translation (cfg : HookConfig) (st : TrackState) (n : Int)
    (ev : MouseLLEvent)
    (hn : n = 0) (hen : cfg.enabled = true) (htag : ev.extraInfo ≠ kArcInjectedTag)
    (hinj : (cfg.ignore_injected && ev.flagsInjected) = false)
    (hup : is_up cfg.trigger ev.msg ev.mouseDataHi = true)
    (htr : st.tracking = true) :
    (LowLevelMouseProc cfg st n ev).handled = true ∧
    (LowLevelMouseProc cfg st n ev).state.tracking = false ∧
    (dword_sub ev.tick st.downTick ≤ cfg.clickTimeMs ∧
        distance_sq ev.pt st.startPt ≤ cfg.moveRadius * cfg.moveRadius →
      (LowLevelMouseProc cfg st n ev).injected =
        [⟨MouseFlag.rightdown, 0, none, kArcInjectedTag⟩,
         ⟨MouseFlag.rightup, 0, none, kArcInjectedTag⟩]) ∧
    (¬ (dword_sub ev.tick st.downTick ≤ cfg.clickTimeMs ∧
          distance_sq ev.pt st.startPt ≤ cfg.moveRadius * cfg.moveRadius) →
      (LowLevelMouseProc cfg st n ev).injected = []) := by
  rw [proc_up_branch cfg st n ev hn hen htag hinj hup, htr]
  by_cases hc : dword_sub ev.tick st.downTick ≤ cfg.clickTimeMs ∧
      distance_sq ev.pt st.startPt ≤ cfg.moveRadius * cfg.moveRadius <;>
    simp [hc, rightClickPair]

/-- Witness for C1 at `cfgW`/`stW`/`evUpW`: elapsed 100 ≤ 250 and squared
displacement 2 ≤ 36, so the tagged right pair is injected and the up is
swallowed. -/
theorem c1_click_translation_witness :
    (LowLevelMouseProc cfgW stW 0 evUpW).handled = true ∧
    (LowLevelMouseProc cfgW stW 0 evUpW).injected =
      [⟨MouseFlag.rightdown, 0, none, kArcInjectedTag⟩,
       ⟨MouseFlag.rightup, 0, none, kArcInjectedTag⟩] :=
  ⟨(c1_click_translation cfgW stW 0 evUpW rfl rfl (by decide) rfl rfl rfl).1,
   (c1_click_translation cfgW stW 0 evUpW rfl rfl (by decide) rfl rfl rfl).2.2.1
     (by decide)⟩

/-- Counterexample to claim C2: reclassifying a drag injects the original
trigger button's down with NO explicit coordinates (the `INPUT` is
zero-initialised and `MOUSEEVENTF_MOVE`/`ABSOLUTE` are never set, so the
event occurs at the pointer's current location), not an event positioned at
the recorded start point. -/
theorem c2_drag_counterexample :
    (LowLevelMouseProc cfgW stW 0 evMoveFarW).injected =
      [⟨MouseFlag.leftdown, 0, none, kArcInjectedTag⟩] ∧
    ∀ ie ∈ (LowLevelMouseProc cfgW stW 0 evMoveFarW).injected,
      ie.pos ≠ some stW.startPt := by
  decide

/-- Amended claim C2: on a pointer move that reaches classification while
tracking, with squared displacement beyond `move_radius_px²`, the callback
passes the move through, ends tracking, and injects exactly one down event
for the original trigger button, tagged and with no explicit coordinates
(it occurs at the pointer's current position); it is not a right-button
event, and any later trigger-button-up (tracking now being off) passes
through with nothing injected, regardless of hold time. -/
theorem c2_drag_reclassification (cfg : HookConfig) (st : TrackState) (n : Int)
    (ev : MouseLLEvent)
    (hn : n = 0) (hen : cfg.enabled = true) (htag : ev.extraInfo ≠ kArcInjectedTag)
    (hinj : (cfg.ignore_injected && ev.flagsInjected) = false)
    (hmm : ev.msg = Msg.mousemove) (htr : st.tracking = true)
    (hd : distance_sq ev.pt st.startPt > cfg.moveRadius * cfg.moveRadius) :
    LowLevelMouseProc cfg st n ev =
      ⟨false, { st with tracking := false }, [srcDownInput cfg.trigger]⟩ ∧
    (srcDownInput cfg.trigger).extraInfo = kArcInjectedTag ∧
    (srcDownInput cfg.trigger).pos = none ∧
    (srcDownInput cfg.trigger).flag ≠ MouseFlag.rightdown ∧
    (srcDownInput cfg.trigger).flag ≠ MouseFlag.rightup ∧
    ∀ (n2 : Int) (ev2 : MouseLLEvent),
      is_up cfg.trigger ev2.msg ev2.mouseDataHi = true →
      LowLevelMouseProc cfg { st with tracking := false } n2 ev2 =
        ⟨false, { st with tracking := false }, []⟩ := by
  refine ⟨?_, srcDownInput_extraInfo cfg.trigger, srcDownInput_pos cfg.trigger,
    (srcDownInput_not_right cfg.trigger).1, (srcDownInput_not_right cfg.trigger).2,
    fun n2 ev2 hup2 => proc_up_notracking cfg _ n2 ev2 rfl hup2⟩
  rw [proc_move_branch cfg st n ev hn hen htag hinj hmm, htr]
  simp [hd]

/-- Witness for amended C2 at `cfgW`/`stW`/`evMoveFarW`: squared displacement
400 > 36, so the tagged left-down is injected and tracking ends. -/
theorem c2_drag_reclassification_witness :
    LowLevelMouseProc cfgW stW 0 evMoveFarW =
      ⟨false, { stW with tracking := false }, [srcDownInput cfgW.trigger]⟩ :=
  (c2_drag_reclassification cfgW stW 0 evMoveFarW rfl rfl (by decide) rfl rfl rfl
    (by decide)).1

/-- Claim C6: any event stamped with this process's injection tag is passed
through untouched — for every configuration, tracking state and hook code,
the callback neither handles it, nor changes the tracking state, nor injects
anything. -/
theorem c6_injected_tag_passthrough (cfg : HookConfig) (st : TrackState) (n : Int)
    (ev : MouseLLEvent) (htag : ev.extraInfo = kArcInjectedTag) :
    LowLevelMouseProc cfg st n ev = ⟨false, st, []⟩ :=
  proc_pass_tag cfg st n ev htag

/-- Witness for C6: a tagged left-button-down with modifiers held and
tracking active is still passed through with no state change. -/
theorem c6_injected_tag_passthrough_witness :
    LowLevelMouseProc cfgW stW 0 evTaggedW = ⟨false, stW, []⟩ :=
  c6_injected_tag_passthrough cfgW stW 0 evTaggedW rfl

/-- Counterexample to claim C7: a second trigger-button-down arriving while
already tracking is NOT a no-op — with the modifiers held it overwrites the
recorded start point and down timestamp with those of the new event. -/
theorem c7_second_down_counterexample :
    (LowLevelMouseProc cfgW stW 0 evDownW).state = ⟨true, ⟨5, 7⟩, 200⟩ ∧
    (LowLevelMouseProc cfgW stW 0 evDownW).state ≠ stW := by
  decide

/-- Amended claim C7: a trigger-button-down that reaches classification while
already tracking restarts tracking when all modifiers are held — swallowing
the down and overwriting the recorded start point and timestamp with the new
event's — and passes through leaving the state untouched when they are not;
either way at most one tracked gesture exists. -/
theorem c7_second_down_restarts (cfg : HookConfig) (st : TrackState) (n : Int)
    (ev : MouseLLEvent)
    (hn : n = 0) (hen : cfg.enabled = true) (htag : ev.extraInfo ≠ kArcInjectedTag)
    (hinj : (cfg.ignore_injected && ev.flagsInjected) = false)
    (hdown : is_down cfg.trigger ev.msg ev.mouseDataHi = true)
    (htr : st.tracking = true) :
    (all_mods_down cfg ev.keyDown = true →
      LowLevelMouseProc cfg st n ev = ⟨true, ⟨true, ev.pt, ev.tick⟩, []⟩) ∧
    (all_mods_down cfg ev.keyDown = false →
      LowLevelMouseProc cfg st n ev = ⟨false, st, []⟩) := by
  rw [proc_down_branch cfg st n ev hn hen htag hinj hdown]
  constructor <;> intro hm <;> simp [hm]

/-- Witness for amended C7: at `cfgW` (no modifier requirement) a second
left-down at (5, 7) restarts tracking there. -/
theorem c7_second_down_restarts_witness :
    LowLevelMouseProc cfgW stW 0 evDownW = ⟨true, ⟨true, ⟨5, 7⟩, 200⟩, []⟩ :=
  (c7_second_down_restarts cfgW stW 0 evDownW rfl rfl (by decide) rfl rfl rfl).1
    (by decide)

/-- Counterexample to claim C8: `apply_hook_config` with `enabled = false`
does not destroy an in-flight tracking state — the tracking flag stays set,
and after re-enabling, the stale state still acts on a later far move
(injecting a source-button down). -/
theorem c8_disable_counterexample :
    (apply_hook_config ⟨false, true, 0, [], Trigger.left, 250, 6⟩ (cfgW, stW)).2
        = stW ∧
    stW.tracking = true ∧
    (LowLevelMouseProc cfgW
        (apply_hook_config ⟨false, true, 0, [], Trigger.left, 250, 6⟩ (cfgW, stW)).2
        0 evMoveFarW).injected ≠ [] := by
  decide

/-- Amended claim C8: while a gesture is tracked, the callback clears the
tracking flag in exactly two cases — a pointer move beyond the radius or a
trigger-button-up, in both cases only when the event reaches classification
(hook code `HC_ACTION`, enabled, untagged, not an ignored injected event);
`apply_hook_config` never changes the tracking state, so disabling the hook
mid-gesture leaves the stale tracking state in place. -/
theorem c8_tracking_end_characterization :
    (∀ (cfg : HookConfig) (st : TrackState) (n : Int) (ev : MouseLLEvent),
      st.tracking = true →
      ((LowLevelMouseProc cfg st n ev).state.tracking = false ↔
        (n = 0 ∧ cfg.enabled = true ∧ ev.extraInfo ≠ kArcInjectedTag ∧
          (cfg.ignore_injected && ev.flagsInjected) = false ∧
          ((ev.msg = Msg.mousemove ∧
              distance_sq ev.pt st.startPt > cfg.moveRadius * cfg.moveRadius) ∨
            is_up cfg.trigger ev.msg ev.mouseDataHi = true)))) ∧
    ∀ (cfg : Config) (g : HookConfig × TrackState),
      (apply_hook_config cfg g).2 = g.2 := by
  refine ⟨fun cfg st n ev htr => ?_, fun cfg g => rfl⟩
  by_cases hn : n = 0
  · by_cases hen : cfg.enabled = true
    · by_cases htag : ev.extraInfo = kArcInjectedTag
      · rw [proc_pass_tag cfg st n ev htag]
        simp [htr, htag]
      · by_cases hinj : (cfg.ignore_injected && ev.flagsInjected) = true
        · rw [proc_pass_injected cfg st n ev hinj]
          simp [htr, hinj]
        · have hinjf : (cfg.ignore_injected && ev.flagsInjected) = false := by
            simpa using hinj
          by_cases hdown : is_down cfg.trigger ev.msg ev.mouseDataHi = true
          · have hmmf := not_mousemove_of_down _ _ _ hdown
            have hupf := is_up_of_down _ _ _ hdown
            rw [proc_down_branch cfg st n ev hn hen htag hinjf hdown]
            cases hm : all_mods_down cfg ev.keyDown <;>
              simp_all [beq_iff_eq]
          · by_cases hmm : ev.msg = Msg.mousemove
            · rw [proc_move_branch cfg st n ev hn hen htag hinjf hmm, htr]
              by_cases hd : distance_sq ev.pt st.startPt >
                  cfg.moveRadius * cfg.moveRadius
              · simp [hd, hn, hen, htag, hinjf, hmm]
              · simp [hd, htr, hmm, hinjf, is_up_mousemove, hmm ▸
                  is_up_mousemove cfg.trigger ev.mouseDataHi]
            · by_cases hup : is_up cfg.trigger ev.msg ev.mouseDataHi = true
              · rw [proc_up_branch cfg st n ev hn hen htag hinjf hup, htr]
                by_cases hc : dword_sub ev.tick st.downTick ≤ cfg.clickTimeMs ∧
                    distance_sq ev.pt st.startPt ≤ cfg.moveRadius * cfg.moveRadius <;>
                  simp [hc, hn, hen, htag, hinjf, hup]
              · have hdownf : is_down cfg.trigger ev.msg ev.mouseDataHi = false := by
                  simpa using hdown
                have hupf : is_up cfg.trigger ev.msg ev.mouseDataHi = false := by
                  simpa using hup
                have hmmf : (ev.msg == Msg.mousemove) = false := by
                  simpa using hmm
                rw [proc_pass_fallthrough cfg st n ev hdownf hmmf hupf]
                simp [htr, hupf, hmm]
    · have henf : cfg.enabled = false := by simpa using hen
      rw [proc_pass_disabled cfg st n ev henf]
      simp [htr, henf]
  · rw [proc_pass_ncode cfg st n ev hn]
    simp [htr, hn]

/-- Witness for amended C8: at `cfgW`/`stW` a far move satisfies the
characterization's right-hand side, so tracking ends. -/
theorem c8_tracking_end_witness :
    (LowLevelMouseProc cfgW stW 0 evMoveFarW).state.tracking = false :=
  (c8_tracking_end_characterization.1 cfgW stW 0 evMoveFarW rfl).mpr
    (by exact ⟨rfl, rfl, by decide, rfl, Or.inl ⟨rfl, by decide⟩⟩)

/-- Claim C9: a pointer move while tracking whose squared displacement from
the recorded start is within `move_radius_px²` is always passed through
unchanged — no injection, no handling, and the tracking state (flag, start
point, down timestamp) is left exactly as it was.  This holds under every
configuration (the early pass-through gates also leave everything
unchanged). -/
theorem c9_move_within_radius_frame (cfg : HookConfig) (st : TrackState) (n : Int)
    (ev : MouseLLEvent) (htr : st.tracking = true) (hmm : ev.msg = Msg.mousemove)
    (hd : distance_sq ev.pt st.startPt ≤ cfg.moveRadius * cfg.moveRadius) :
    LowLevelMouseProc cfg st n ev = ⟨false, st, []⟩ := by
  by_cases hn : n = 0
  · by_cases hen : cfg.enabled = true
    · by_cases htag : ev.extraInfo = kArcInjectedTag
      · exact proc_pass_tag cfg st n ev htag
      · by_cases hinj : (cfg.ignore_injected && ev.flagsInjected) = true
        · exact proc_pass_injected cfg st n ev hinj
        · have hinjf : (cfg.ignore_injected && ev.flagsInjected) = false := by
            simpa using hinj
          rw [proc_move_branch cfg st n ev hn hen htag hinjf hmm, htr]
          simp [not_lt.mpr hd]
    · exact proc_pass_disabled cfg st n ev (by simpa using hen)
  · exact proc_pass_ncode cfg st n ev hn

/-- Witness for C9 at `cfgW`/`stW`/`evMoveNearW`: squared displacement
4 ≤ 36, so the move passes through and the state is untouched. -/
theorem c9_move_within_radius_frame_witness :
    LowLevelMouseProc cfgW stW 0 evMoveNearW = ⟨false, stW, []⟩ :=
  c9_move_within_radius_frame cfgW stW 0 evMoveNearW rfl rfl (by decide)

/-! ## Monitor lemmas and claim theorems -/

/-- The backoff value after `j` applications of the doubling-and-cap update,
starting from `b`. -/
def bpow (bmax b : Int) : Nat → Int
  | 0 => b
  | j + 1 => bpow bmax (next_backoff bmax b) j

lemma backoffSleeps_append (l1 l2 : List MonEvent) :
    backoffSleeps (l1 ++ l2) = backoffSleeps l1 ++ backoffSleeps l2 := by
  induction l1 with
  | nil => rfl
  | cons a l ih => cases a <;> simp [backoffSleeps, ih]

lemma monitor_iter_spawnFail_empty (cfg : MonConfig) (b : Int)
    (hR : 0 < cfg.maxRestarts) (now : Int) :
    monitor_iter cfg ⟨[], b⟩ now IterOutcome.spawnFail =
      ([MonEvent.deleteStaleMarker, MonEvent.spawnAttempt, MonEvent.sleepBackoff b],
       some ⟨[], next_backoff cfg.backoffMax b⟩) := by
  have hcap : ¬ cfg.maxRestarts ≤ ((([] : List Int).length : Nat) : Int) := by
    simpa using hR
  simp [monitor_iter, prune, hcap]
  exact hR

lemma spawnFail_run_sleeps (cfg : MonConfig) (hR : 0 < cfg.maxRestarts)
    (b : Int) (k : Nat) :
    backoffSleeps (monitor_run cfg ⟨[], b⟩
        (List.replicate k ((0 : Int), IterOutcome.spawnFail))).1
      = (List.range k).map (bpow cfg.backoffMax b) := by
  induction k generalizing b with
  | zero => rfl
  | succ k ih =>
    rw [List.replicate_succ]
    simp only [monitor_run, monitor_iter_spawnFail_empty cfg b hR 0]
    rw [backoffSleeps_append, ih (next_backoff cfg.backoffMax b),
      List.range_succ_eq_map, List.map_cons, List.map_map]
    simp only [backoffSleeps, List.cons_append, List.nil_append]
    congr 1

lemma bpow_closed (bmax b : Int) (j : Nat) (h0 : 0 ≤ b) (hbm : b ≤ bmax) :
    bpow bmax b j = min (2 ^ j * b) bmax := by
  induction j generalizing b with
  | zero =>
    rw [bpow, pow_zero, one_mul]
    exact (min_eq_left hbm).symm
  | succ j ih =>
    have hbmax : (0 : Int) ≤ bmax := le_trans h0 hbm
    have h0n : (0 : Int) ≤ next_backoff bmax b :=
      le_min (by linarith) hbmax
    have hbn : next_backoff bmax b ≤ bmax := min_le_right _ _
    rw [bpow, ih _ h0n hbn]
    have h1 : (1 : Int) ≤ 2 ^ j := by
      calc (1 : Int) = 2 ^ 0 := (pow_zero 2).symm
        _ ≤ 2 ^ j := pow_le_pow_right₀ (by norm_num) (Nat.zero_le j)
    rcases le_or_lt (b * 2) bmax with hle | hlt
    · rw [next_backoff, min_eq_left hle]
      congr 1
      ring
    · rw [next_backoff, min_eq_right hlt.le]
      have e1 : min ((2 : Int) ^ j * bmax) bmax = bmax :=
        min_eq_right (le_mul_of_one_le_left hbmax h1)
      have e2 : min ((2 : Int) ^ (j + 1) * b) bmax = bmax := by
        refine min_eq_right ?_
        have hb2 : (0 : Int) ≤ b * 2 := by linarith
        have hmul : (1 : Int) * (b * 2) ≤ 2 ^ j * (b * 2) :=
          mul_le_mul_of_nonneg_right h1 hb2
        have hpow : (2 : Int) ^ (j + 1) * b = 2 ^ j * (b * 2) := by ring
        rw [hpow]
        linarith
      rw [e1, e2]

/-- Counterexample to claim C3: with cap 3 in a 60 s window and backoff
1000/30000 ms, three abnormal child exits at 0 s, 5 s and 10 s already
trigger the full-window sleep — it precedes the restart that follows the
third crash (only 3 spawn attempts occur before it), rather than occurring
only once a fourth crash falls within the window. -/
theorem c3_rate_limit_counterexample :
    (monitor_run ⟨3, 60, 30000⟩ ⟨[], 1000⟩
        [((0 : Int), IterOutcome.exited 1 false 0),
         ((1 : Int), IterOutcome.exited 1 false 5),
         ((7 : Int), IterOutcome.exited 1 false 10),
         ((14 : Int), IterOutcome.exited 1 false 10)]).1 =
      [MonEvent.deleteStaleMarker, MonEvent.spawnAttempt,
       MonEvent.saveHistory [0], MonEvent.sleepBackoff 1000,
       MonEvent.deleteStaleMarker, MonEvent.spawnAttempt,
       MonEvent.saveHistory [0, 5], MonEvent.sleepBackoff 2000,
       MonEvent.deleteStaleMarker, MonEvent.spawnAttempt,
       MonEvent.saveHistory [0, 5, 10], MonEvent.sleepBackoff 4000,
       MonEvent.deleteStaleMarker, MonEvent.sleepWindow] ∧
    MonEvent.sleepWindow ∈ (monitor_run ⟨3, 60, 30000⟩ ⟨[], 1000⟩
        [((0 : Int), IterOutcome.exited 1 false 0),
         ((1 : Int), IterOutcome.exited 1 false 5),
         ((7 : Int), IterOutcome.exited 1 false 10),
         ((14 : Int), IterOutcome.exited 1 false 10)]).1 ∧
    ((monitor_run ⟨3, 60, 30000⟩ ⟨[], 1000⟩
        [((0 : Int), IterOutcome.exited 1 false 0),
         ((1 : Int), IterOutcome.exited 1 false 5),
         ((7 : Int), IterOutcome.exited 1 false 10),
         ((14 : Int), IterOutcome.exited 1 false 10)]).1.takeWhile
          (fun e => !(e == MonEvent.sleepWindow))).count MonEvent.spawnAttempt
      = 3 := by
  decide

/-- Amended claim C3: once the pruned restart history holds at least
`max_restarts` timestamps — i.e. after N abnormal child exits within the
window — the iteration sleeps for the full window and attempts no spawn,
leaving the history and backoff unchanged; so the full-window sleep precedes
the restart following the N-th crash.  In the cap-3/60 s/1000-30000 ms
scenario with crashes at 0 s, 5 s, 10 s, the first two crashes are followed
by restarts after backoff sleeps 1000 and 2000 ms, and the third by backoff
4000 ms and then the full-window sleep before the third restart attempt. -/
theorem c3_rate_limit_throttle :
    (∀ (cfg : MonConfig) (s : MonState) (now : Int) (out : IterOutcome),
      cfg.maxRestarts ≤ (((prune cfg.window now s.restarts).length : Nat) : Int) →
      MonEvent.sleepWindow ∈ (monitor_iter cfg s now out).1 ∧
      MonEvent.spawnAttempt ∉ (monitor_iter cfg s now out).1 ∧
      (monitor_iter cfg s now out).2 =
        some ⟨prune cfg.window now s.restarts, s.backoff⟩) ∧
    (monitor_run ⟨3, 60, 30000⟩ ⟨[], 1000⟩
        [((0 : Int), IterOutcome.exited 1 false 0),
         ((1 : Int), IterOutcome.exited 1 false 5),
         ((7 : Int), IterOutcome.exited 1 false 10),
         ((14 : Int), IterOutcome.exited 1 false 10)]).1 =
      [MonEvent.deleteStaleMarker, MonEvent.spawnAttempt,
       MonEvent.saveHistory [0], MonEvent.sleepBackoff 1000,
       MonEvent.deleteStaleMarker, MonEvent.spawnAttempt,
       MonEvent.saveHistory [0, 5], MonEvent.sleepBackoff 2000,
       MonEvent.deleteStaleMarker, MonEvent.spawnAttempt,
       MonEvent.saveHistory [0, 5, 10], MonEvent.sleepBackoff 4000,
       MonEvent.deleteStaleMarker, MonEvent.sleepWindow] := by
  constructor
  · intro cfg s now out hcap
    by_cases hpr : (prune cfg.window now s.restarts).length ≠ s.restarts.length <;>
      simp [monitor_iter, hcap, hpr]
  · decide

/-- Witness for amended C3: with history `[0, 5, 10]` at the cap 3, the rate
check at time 14 sleeps the full window, spawns nothing and keeps the
history. -/
theorem c3_rate_limit_throttle_witness :
    MonEvent.sleepWindow ∈
      (monitor_iter ⟨3, 60, 30000⟩ ⟨[0, 5, 10], 8000⟩ 14
        (IterOutcome.exited 1 false 10)).1 ∧
    MonEvent.spawnAttempt ∉
      (monitor_iter ⟨3, 60, 30000⟩ ⟨[0, 5, 10], 8000⟩ 14
        (IterOutcome.exited 1 false 10)).1 ∧
    (monitor_iter ⟨3, 60, 30000⟩ ⟨[0, 5, 10], 8000⟩ 14
        (IterOutcome.exited 1 false 10)).2 =
      some ⟨prune 60 14 [0, 5, 10], 8000⟩ :=
  c3_rate_limit_throttle.1 ⟨3, 60, 30000⟩ ⟨[0, 5, 10], 8000⟩ 14
    (IterOutcome.exited 1 false 10) (by decide)

/-- Claim C4: on a child exit in an un-throttled iteration, the supervisor
keeps looping (restarts) exactly when the exit code is nonzero and the
intent marker is absent; on exit code 0 or a present marker it deletes the
persisted restart history and terminates with no restart, deleting the
marker it found. -/
theorem c4_exit_classification (cfg : MonConfig) (s : MonState) (now : Int)
    (code : Nat) (marker : Bool) (t : Int)
    (hcap : ¬ cfg.maxRestarts ≤
      (((prune cfg.window now s.restarts).length : Nat) : Int)) :
    ((monitor_iter cfg s now (IterOutcome.exited code marker t)).2 ≠ none ↔
      (code ≠ 0 ∧ marker = false)) ∧
    (code = 0 ∨ marker = true →
      (monitor_iter cfg s now (IterOutcome.exited code marker t)).2 = none ∧
      MonEvent.clearHistory ∈
        (monitor_iter cfg s now (IterOutcome.exited code marker t)).1) ∧
    (marker = true →
      MonEvent.deleteIntentMarker ∈
        (monitor_iter cfg s now (IterOutcome.exited code marker t)).1) ∧
    (code ≠ 0 ∧ marker = false →
      (monitor_iter cfg s now (IterOutcome.exited code marker t)).2 =
        some ⟨prune cfg.window now s.restarts ++ [t],
          next_backoff cfg.backoffMax s.backoff⟩ ∧
      MonEvent.clearHistory ∉
        (monitor_iter cfg s now (IterOutcome.exited code marker t)).1) := by
  refine ⟨?_, fun h => ?_, fun hm => ?_, fun h => ?_⟩
  · by_cases hc : code = 0 <;> by_cases hm : marker = true <;>
      simp [monitor_iter, hcap, hc, hm]
  · rcases h with hc | hm
    · simp [monitor_iter, hcap, hc]
    · simp [monitor_iter, hcap, hm]
  · simp [monitor_iter, hcap, hm]
  · obtain ⟨hc, hm⟩ := h
    simp [monitor_iter, hcap, hc, hm]

/-- Witness for C4: an abnormal exit (code 1, no marker) with empty history
continues the loop. -/
theorem c4_exit_classification_witness :
    (monitor_iter ⟨3, 60, 30000⟩ ⟨[], 1000⟩ 0
        (IterOutcome.exited 1 false 0)).2 ≠ none ↔
      ((1 : Nat) ≠ 0 ∧ false = false) :=
  (c4_exit_classification ⟨3, 60, 30000⟩ ⟨[], 1000⟩ 0 1 false 0 (by decide)).1

/-- Claim C5 is falsified by an admissible configuration: the configuration
loader only clamps `persistence_backoff_ms` and `persistence_backoff_max_ms`
from below (at 0), so initial 50000 with cap 30000 is loadable, and the
first applied backoff delay is the uncapped initial 50000 > 30000. -/
theorem c5_backoff_counterexample :
    backoffSleeps (monitor_run ⟨5, 60, 30000⟩ ⟨[], 50000⟩
        [((0 : Int), IterOutcome.spawnFail)]).1 = [50000] ∧
    ¬ ((50000 : Int) ≤ 30000) := by
  decide

/-- Amended claim C5: the backoff starts at the configured initial value
(applied uncapped), and after every spawn failure — and likewise after every
abnormal child exit — it is doubled with the result capped at the configured
maximum.  Provided the initial value does not exceed the maximum, the
sequence of applied delays is `min(2^k·initial, max)` for k = 0, 1, 2, …,
and never exceeds the maximum. -/
theorem c5_backoff_doubling_capped (maxR w bmax i : Int) (k : Nat)
    (hR : 0 < maxR) (h0 : 0 ≤ i) (him : i ≤ bmax) :
    backoffSleeps (monitor_run ⟨maxR, w, bmax⟩ ⟨[], i⟩
        (List.replicate k ((0 : Int), IterOutcome.spawnFail))).1 =
      (List.range k).map (fun j => min (2 ^ j * i) bmax) ∧
    (∀ d ∈ backoffSleeps (monitor_run ⟨maxR, w, bmax⟩ ⟨[], i⟩
        (List.replicate k ((0 : Int), IterOutcome.spawnFail))).1, d ≤ bmax) ∧
    (∀ (cfg : MonConfig) (s : MonState) (now : Int) (code : Nat) (t : Int),
      code ≠ 0 →
      ¬ cfg.maxRestarts ≤
        (((prune cfg.window now s.restarts).length : Nat) : Int) →
      (monitor_iter cfg s now (IterOutcome.exited code false t)).2 =
        some ⟨prune cfg.window now s.restarts ++ [t],
          next_backoff cfg.backoffMax s.backoff⟩) := by
  have h := spawnFail_run_sleeps ⟨maxR, w, bmax⟩ hR i k
  refine ⟨?_, ?_, fun cfg s now code t hc hcap => ?_⟩
  · rw [h]
    exact List.map_congr_left fun j _ => bpow_closed bmax i j h0 him
  · intro d hd
    rw [h] at hd
    simp only [List.mem_map, List.mem_range] at hd
    obtain ⟨j, _, rfl⟩ := hd
    rw [bpow_closed bmax i j h0 him]
    exact min_le_right _ _
  · simp [monitor_iter, hcap, hc]

/-- Witness for amended C5 with initial 1000, cap 30000, three spawn
failures: the applied delays follow `min(2^j·1000, 30000)`. -/
theorem c5_backoff_doubling_capped_witness :
    backoffSleeps (monitor_run ⟨5, 60, 30000⟩ ⟨[], 1000⟩
        (List.replicate 3 ((0 : Int), IterOutcome.spawnFail))).1 =
      (List.range 3).map (fun j => min (2 ^ j * 1000) 30000) :=
  (c5_backoff_doubling_capped 5 60 30000 1000 3 (by norm_num) (by norm_num)
    (by norm_num)).1

/-- Claim C10: in every iteration that continues the loop, a timestamp is
appended to the (in-memory and persisted) restart history if and only if the
spawned child exited abnormally (nonzero code, no intent marker) in an
un-throttled iteration: such an exit always appends exactly its timestamp
and rewrites the history file with it; any growth of the history implies
such an exit; and a spawn failure or a throttle sleep always leaves the
history exactly the pruned previous one. -/
theorem c10_history_append_iff (cfg : MonConfig) (s : MonState) (now : Int)
    (out : IterOutcome) (s2 : MonState)
    (h : (monitor_iter cfg s now out).2 = some s2) :
    (∀ code t, out = IterOutcome.exited code false t → code ≠ 0 →
      ¬ cfg.maxRestarts ≤
        (((prune cfg.window now s.restarts).length : Nat) : Int) →
      s2.restarts = prune cfg.window now s.restarts ++ [t] ∧
      MonEvent.saveHistory (prune cfg.window now s.restarts ++ [t]) ∈
        (monitor_iter cfg s now out).1) ∧
    (s2.restarts ≠ prune cfg.window now s.restarts →
      ∃ code t, out = IterOutcome.exited code false t ∧ code ≠ 0 ∧
        ¬ cfg.maxRestarts ≤
          (((prune cfg.window now s.restarts).length : Nat) : Int) ∧
        s2.restarts = prune cfg.window now s.restarts ++ [t]) ∧
    (out = IterOutcome.spawnFail ∨
        cfg.maxRestarts ≤
          (((prune cfg.window now s.restarts).length : Nat) : Int) →
      s2.restarts = prune cfg.window now s.restarts) := by
  by_cases hcap : cfg.maxRestarts ≤
      (((prune cfg.window now s.restarts).length : Nat) : Int)
  · have hred : (monitor_iter cfg s now out).2 =
        some ⟨prune cfg.window now s.restarts, s.backoff⟩ := by
      simp [monitor_iter, hcap]
    rw [hred] at h
    cases Option.some.inj h
    exact ⟨fun code t _ _ hcap2 => absurd hcap hcap2,
      fun hne => absurd rfl hne, fun _ => rfl⟩
  · cases out with
    | spawnFail =>
      have hred : (monitor_iter cfg s now IterOutcome.spawnFail).2 =
          some ⟨prune cfg.window now s.restarts,
            next_backoff cfg.backoffMax s.backoff⟩ := by
        simp [monitor_iter, hcap]
      rw [hred] at h
      cases Option.some.inj h
      exact ⟨fun code t hout _ _ => absurd hout (by simp),
        fun hne => absurd rfl hne, fun _ => rfl⟩
    | stopped =>
      simp [monitor_iter, hcap] at h
    | exited code marker t =>
      by_cases hc : code = 0
      · simp [monitor_iter, hcap, hc] at h
      · by_cases hm : marker = true
        · simp [monitor_iter, hcap, hc, hm] at h
        · have hmf : marker = false := by simpa using hm
          subst hmf
          have hred : (monitor_iter cfg s now
              (IterOutcome.exited code false t)).2 =
              some ⟨prune cfg.window now s.restarts ++ [t],
                next_backoff cfg.backoffMax s.backoff⟩ := by
            simp [monitor_iter, hcap, hc]
          rw [hred] at h
          cases Option.some.inj h
          have hsave : MonEvent.saveHistory
              (prune cfg.window now s.restarts ++ [t]) ∈
              (monitor_iter cfg s now (IterOutcome.exited code false t)).1 := by
            by_cases hpr :
                (prune cfg.window now s.restarts).length ≠ s.restarts.length <;>
              simp [monitor_iter, hcap, hc, hpr]
          refine ⟨fun code2 t2 hout _ _ => ?_,
            fun _ => ⟨code, t, rfl, hc, hcap, rfl⟩, fun hout => ?_⟩
          · obtain ⟨rfl, rfl⟩ :  code = code2 ∧ t = t2 := by
              cases hout
              exact ⟨rfl, rfl⟩
            exact ⟨rfl, hsave⟩
          · rcases hout with hout | hout
            · exact absurd hout (by simp)
            · exact absurd hout hcap

/-- Witness for C10: an abnormal exit (code 1, no marker, empty history, far
below the cap) appends exactly its timestamp 0 and rewrites the history file
with `[0]`. -/
theorem c10_history_append_iff_witness :
    (⟨[0], 2000⟩ : MonState).restarts = prune 60 0 ([] : List Int) ++ [0] ∧
    MonEvent.saveHistory (prune 60 0 ([] : List Int) ++ [0]) ∈
      (monitor_iter ⟨3, 60, 30000⟩ ⟨[], 1000⟩ 0
        (IterOutcome.exited 1 false 0)).1 :=
  (c10_history_append_iff ⟨3, 60, 30000⟩ ⟨[], 1000⟩ 0
      (IterOutcome.exited 1 false 0) ⟨[0], 2000⟩ (by decide)).1 1 0 rfl
    (by decide) (by decide)

end Arc
